import Mathlib

/-!
Verification of the format-dispatch and extraction pipeline of
`src/app.py` (a Streamlit data-visualization app), via a shallow
embedding of its helper functions and main dispatch logic.

External container libraries (pdfplumber, python-docx) are modelled by
their outputs: a PDF is a list of pages, each yielding either some
extracted text or none (`page.extract_text()` returning `None`); a Word
document is a list of paragraph texts.  Python string primitives
(`lower`, `split`, `strip`, slicing, `len`) are embedded as structurally
recursive functions on the underlying character list, matching Python's
code-point semantics.
-/

namespace DataVizApp

/-! ## Python string primitives -/

/-- Embeds Python `str.lower()`: lowercase every character. -/
def pyLower (s : String) : String :=
  ⟨s.data.map Char.toLower⟩

/-- Embeds Python `str.split(".")` on the character list: cut at every
occurrence of the dot, keeping empty segments (so a string with no dot
yields one segment, the whole string). -/
def splitDot : List Char → List (List Char)
  | [] => [[]]
  | c :: cs =>
    match splitDot cs with
    | [] => [[]]
    | seg :: segs => if c = '.' then [] :: seg :: segs else (c :: seg) :: segs

/-- Embeds Python `str.strip()`: drop leading and trailing whitespace. -/
def pyStrip (s : String) : String :=
  ⟨((s.data.dropWhile Char.isWhitespace).reverse.dropWhile Char.isWhitespace).reverse⟩

/-- Embeds Python `s[:n]`: the first `n` characters (code points). -/
def pyTake (n : Nat) (s : String) : String :=
  ⟨s.data.take n⟩

/-- Embeds Python `len(s)`: the number of characters (code points). -/
def pyLen (s : String) : Nat :=
  s.data.length

/-! ## Format classification (src/app.py line 82 and the if/elif chain) -/

/-- The four format families the dispatch chain distinguishes. -/
inductive FormatTag where
  | Spreadsheet
  | DelimitedText
  | PortableDocument
  | WordDocument
deriving DecidableEq, Repr

/-- Embeds `uploaded_file.name.split(".")[-1].lower()` (src/app.py
line 82): the lowercased last dot-separated segment of the filename. -/
def file_type (name : String) : String :=
  pyLower ⟨(splitDot name.data).getLastD []⟩

/-- Embeds the dispatch chain's extension test as an `Option`-valued
classifier: `if file_type in ["xlsx", "xls"] ... elif "csv" ... elif
"pdf" ... elif "docx"` with no `else` branch (src/app.py lines 84-156);
`none` models falling through the chain with no branch taken. -/
def classify (name : String) : Option FormatTag :=
  let ft := file_type name
  if ft = "xlsx" ∨ ft = "xls" then some .Spreadsheet
  else if ft = "csv" then some .DelimitedText
  else if ft = "pdf" then some .PortableDocument
  else if ft = "docx" then some .WordDocument
  else none

/-! ## Word-document text extraction (src/app.py lines 67-71) -/

/-- Embeds `" ".join([p.text for p in doc.paragraphs if p.text.strip()])`
(src/app.py line 71), over the document's list of paragraph texts. -/
def extract_text_from_docx (paragraphs : List String) : String :=
  " ".intercalate (paragraphs.filter (fun p => pyStrip p ≠ ""))

/-- Spec-side joiner: concatenate a list of fragments with a single
space between consecutive fragments. -/
def join_with_space : List String → String
  | [] => ""
  | [p] => p
  | p :: q :: ps => p ++ " " ++ join_with_space (q :: ps)

/-- Spec-side docx contract: keep the paragraphs whose trimmed text is
non-empty, in original order, joined by exactly one space. -/
def extractDocxText_spec (paragraphs : List String) : String :=
  join_with_space (paragraphs.filter (fun p => pyStrip p ≠ ""))

theorem intercalate_go_append (s : String) :
    ∀ (l : List String) (acc pre : String),
      String.intercalate.go (pre ++ acc) s l = pre ++ String.intercalate.go acc s l
  | [], _, _ => rfl
  | b :: bs, acc, pre => by
    show String.intercalate.go (pre ++ acc ++ s ++ b) s bs =
      pre ++ String.intercalate.go (acc ++ s ++ b) s bs
    rw [String.append_assoc, String.append_assoc, ← String.append_assoc acc s b]
    exact intercalate_go_append s bs (acc ++ s ++ b) pre

theorem intercalate_space_eq_join_with_space :
    ∀ l : List String, " ".intercalate l = join_with_space l
  | [] => rfl
  | [_] => rfl
  | p :: q :: ps => by
    have h1 : " ".intercalate (p :: q :: ps) =
        String.intercalate.go (p ++ " " ++ q) " " ps := rfl
    have h2 : " ".intercalate (q :: ps) = String.intercalate.go q " " ps := rfl
    have h3 : join_with_space (p :: q :: ps) = p ++ " " ++ join_with_space (q :: ps) := rfl
    rw [h3, ← intercalate_space_eq_join_with_space (q :: ps), h1, h2]
    exact intercalate_go_append " " ps q (p ++ " ")

/-- C2: `extract_text_from_docx` returns the paragraphs whose trimmed
text is non-empty, in original order, joined by a single space; on the
paragraph list ["Hello", "", "  ", "World"] it returns "Hello World". -/
theorem extract_docx_joins_nonblank_paragraphs :
    (∀ paragraphs : List String,
        extract_text_from_docx paragraphs = extractDocxText_spec paragraphs) ∧
      extract_text_from_docx ["Hello", "", "  ", "World"] = "Hello World" := by
  constructor
  · intro paragraphs
    exact intercalate_space_eq_join_with_space _
  · decide

/-- C3: every filename whose extension (the last dot-separated segment)
is a case variant of xlsx, xls, csv, pdf or docx is classified with the
single tag of that extension, xlsx and xls both giving Spreadsheet, and
any two filenames whose extensions agree up to character case receive
the same classification. -/
theorem classify_accepted_extensions (name : String) :
    (file_type name = "xlsx" → classify name = some FormatTag.Spreadsheet) ∧
    (file_type name = "xls" → classify name = some FormatTag.Spreadsheet) ∧
    (file_type name = "csv" → classify name = some FormatTag.DelimitedText) ∧
    (file_type name = "pdf" → classify name = some FormatTag.PortableDocument) ∧
    (file_type name = "docx" → classify name = some FormatTag.WordDocument) ∧
    (∀ name' : String,
      ((splitDot name.data).getLastD []).map Char.toLower =
        ((splitDot name'.data).getLastD []).map Char.toLower →
      classify name = classify name') := by
  refine ⟨?_, ?_, ?_, ?_, ?_, ?_⟩
  · intro h; simp [classify, h]
  · intro h; simp [classify, h]
  · intro h
    have hne : ¬ (file_type name = "xlsx" ∨ file_type name = "xls") := by
      rw [h]; decide
    simp [classify, h, hne]
  · intro h
    have hne : ¬ (file_type name = "xlsx" ∨ file_type name = "xls") := by
      rw [h]; decide
    simp [classify, h, hne]
  · intro h
    have hne : ¬ (file_type name = "xlsx" ∨ file_type name = "xls") := by
      rw [h]; decide
    simp [classify, h, hne]
  · intro name' h
    have hft : file_type name = file_type name' := by
      simp only [file_type, pyLower]
      exact congrArg String.mk h
    simp only [classify, hft]

/-- Witness for C3: concrete case-variant filenames, each hypothesis
discharged by evaluation. -/
theorem classify_accepted_extensions_witness :
    classify "report.XLSX" = some FormatTag.Spreadsheet ∧
      classify "a.CsV" = classify "b.csv" := by
  refine ⟨?_, ?_⟩
  · exact (classify_accepted_extensions "report.XLSX").1 (by decide)
  · exact (classify_accepted_extensions "a.CsV").2.2.2.2.2 "b.csv" (by decide)

/-! ## PDF text extraction (src/app.py lines 55-65) -/

/-- Embeds the page loop of `extract_text_from_pdf`: for each index in
turn, `pdf.pages[i]` (failing like Python's IndexError, hence `Option`,
when `i` is out of range), then `text += page.extract_text() or ""`. -/
def pdf_page_loop (pages : List (Option String)) : List Nat → String → Option String
  | [], text => some text
  | i :: is, text =>
    match pages[i]? with
    | none => none
    | some page => pdf_page_loop pages is (text ++ page.getD "")

/-- Embeds `extract_text_from_pdf` (src/app.py lines 56-65): clamp
`end_page` to the page count, then concatenate the text extracted from
pages `start_page` to the clamp, `range(start_page, end_page)` embedded
as `List.range'`. -/
def extract_text_from_pdf (pages : List (Option String))
    (start_page end_page : Nat) : Option String :=
  let total_pages := pages.length
  let clamped := min end_page total_pages
  pdf_page_loop pages (List.range' start_page (clamped - start_page)) ""

/-- Spec-side concatenation of the extracted text of the pages at the
given indices, a page yielding no extractable text contributing "". -/
def concatPages (pages : List (Option String)) (idxs : List Nat) : String :=
  idxs.foldr (fun i acc => ((pages.getD i none).getD "") ++ acc) ""

theorem pdf_page_loop_eq (pages : List (Option String)) :
    ∀ (l : List Nat) (text : String), (∀ i ∈ l, i < pages.length) →
      pdf_page_loop pages l text = some (text ++ concatPages pages l)
  | [], text, _ => by
    show some text = some (text ++ "")
    rw [String.append_empty]
  | i :: is, text, h => by
    have hi : i < pages.length := h i (List.mem_cons_self i is)
    have hrest : ∀ j ∈ is, j < pages.length := fun j hj => h j (List.mem_cons_of_mem i hj)
    have hget : pages[i]? = some (pages.getD i none) := by
      rw [List.getElem?_eq_getElem hi, List.getD_eq_getElem pages none hi]
    simp only [pdf_page_loop, hget]
    rw [pdf_page_loop_eq pages is (text ++ (pages.getD i none).getD "") hrest]
    congr 1
    show text ++ (pages.getD i none).getD "" ++ concatPages pages is =
      text ++ (((pages.getD i none).getD "") ++ concatPages pages is)
    rw [String.append_assoc]

/-- C1: `extract_text_from_pdf` never fails with an out-of-range access
and returns the in-order concatenation of the extracted text of pages
`start_page` through `min end_page pageCount - 1`, a page yielding no
extractable text contributing the empty string, a window extending
beyond the last page being silently clamped. -/
theorem extract_pdf_window_clamped (pages : List (Option String))
    (start_page end_page : Nat) :
    extract_text_from_pdf pages start_page end_page =
      some (concatPages pages
        (List.range' start_page (min end_page pages.length - start_page))) := by
  have hb : ∀ i ∈ List.range' start_page (min end_page pages.length - start_page),
      i < pages.length := by
    intro i hi
    rw [List.mem_range'_1] at hi
    have hmin : min end_page pages.length ≤ pages.length :=
      Nat.min_le_right end_page pages.length
    omega
  have hl := pdf_page_loop_eq pages
    (List.range' start_page (min end_page pages.length - start_page)) "" hb
  have hnil : ∀ s : String, "" ++ s = s := fun s => rfl
  rw [extract_text_from_pdf, hl, hnil]

/-! ## Chart building (src/app.py lines 94-128) -/

/-- The four chart kinds selectable in the sidebar. -/
inductive ChartKind where
  | Bar
  | Pie
  | Line
  | Scatter
deriving DecidableEq, Repr

/-- A data frame, modelled by its ordered column names (the only part
the chart-construction logic inspects). -/
structure Table where
  columns : List String
deriving DecidableEq, Repr

/-- A constructed plotly figure, modelled declaratively: chart kind, the
data frame handed to plotly express, the x and y column names, and the
title string. -/
structure ChartSpec where
  kind : ChartKind
  data : Table
  x_axis : String
  y_axis : String
  title : String
deriving DecidableEq, Repr

/-- Embeds the f-string titles of the Excel branch (src/app.py lines
99, 101, 103, 105). -/
def chart_title (chart_type : ChartKind) (x_axis y_axis : String) : String :=
  match chart_type with
  | .Bar => y_axis ++ " by " ++ x_axis
  | .Pie => y_axis ++ " distribution by " ++ x_axis
  | .Line => y_axis ++ " trend by " ++ x_axis
  | .Scatter => y_axis ++ " vs " ++ x_axis

/-- Embeds the Excel branch's chart construction (src/app.py lines
94-107): `cols` is the ordered multiselect value; `if len(cols) >= 2:
x_axis, y_axis = cols[0], cols[1]` then one px call per chart kind;
with fewer than two selections no figure is built. -/
def excel_branch_chart (df : Table) (chart_type : ChartKind)
    (cols : List String) : Option ChartSpec :=
  if cols.length ≥ 2 then
    some ⟨chart_type, df, cols.getD 0 "", cols.getD 1 "",
      chart_title chart_type (cols.getD 0 "") (cols.getD 1 "")⟩
  else none

/-- Embeds the CSV branch's chart construction (src/app.py lines
115-128): identical to the Excel branch except the px calls pass no
title. -/
def csv_branch_chart (df : Table) (chart_type : ChartKind)
    (cols : List String) : Option ChartSpec :=
  if cols.length ≥ 2 then
    some ⟨chart_type, df, cols.getD 0 "", cols.getD 1 "", ""⟩
  else none

/-- C6 counterexample: on the 2-column table (A, B) with the two columns
selected in the order (B, A), the Bar chart's read-back x/y pair is
("B", "A"), not ("A", "B") — the round-trip is not independent of the
selection order. -/
theorem bar_chart_selection_order_counterexample :
    (excel_branch_chart ⟨["A", "B"]⟩ ChartKind.Bar ["B", "A"]).map
        (fun c => (c.x_axis, c.y_axis)) = some ("B", "A") ∧
      some (("B" : String), ("A" : String)) ≠ some (("A" : String), ("B" : String)) := by
  constructor
  · decide
  · decide

/-- C6 amended: building a Bar ChartSpec from a table and a selection
list whose first two entries are a, b reads back exactly (a, b) — the
x/y pair follows the user's selection order (first selected is x,
second is y), in both the Excel and the CSV branch. -/
theorem bar_chart_roundtrip_selection_order (df : Table) (a b : String)
    (rest : List String) :
    (excel_branch_chart df ChartKind.Bar (a :: b :: rest)).map
        (fun c => (c.x_axis, c.y_axis)) = some (a, b) ∧
      (csv_branch_chart df ChartKind.Bar (a :: b :: rest)).map
        (fun c => (c.x_axis, c.y_axis)) = some (a, b) := by
  have h2 : (a :: b :: rest).length ≥ 2 := by
    simp only [List.length_cons]
    omega
  constructor
  · simp [excel_branch_chart, h2, List.getD]
  · simp [csv_branch_chart, h2, List.getD]

/-- C7: with fewer than two selected columns, neither branch constructs
a chart — the result is absent, with no error. -/
theorem chart_requires_two_columns (df : Table) (chart_type : ChartKind)
    (cols : List String) (h : cols.length < 2) :
    excel_branch_chart df chart_type cols = none ∧
      csv_branch_chart df chart_type cols = none := by
  have h2 : ¬ cols.length ≥ 2 := by omega
  exact ⟨by simp [excel_branch_chart, h2], by simp [csv_branch_chart, h2]⟩

/-- Witness for C7: a single selected column yields no chart. -/
theorem chart_requires_two_columns_witness :
    excel_branch_chart ⟨["A", "B"]⟩ ChartKind.Bar ["A"] = none ∧
      csv_branch_chart ⟨["A", "B"]⟩ ChartKind.Bar ["A"] = none :=
  chart_requires_two_columns ⟨["A", "B"]⟩ ChartKind.Bar ["A"] (by decide)

/-- C10: only the first two selected columns shape the chart: any later
selected columns leave the constructed chart unchanged in both
branches, and the x/y axes are exactly the first and second selected
columns. -/
theorem chart_ignores_extra_columns (df : Table) (chart_type : ChartKind)
    (a b : String) (rest : List String) :
    excel_branch_chart df chart_type (a :: b :: rest) =
        excel_branch_chart df chart_type [a, b] ∧
      csv_branch_chart df chart_type (a :: b :: rest) =
        csv_branch_chart df chart_type [a, b] ∧
      (excel_branch_chart df chart_type (a :: b :: rest)).map
        (fun c => (c.x_axis, c.y_axis)) = some (a, b) := by
  have h2 : (a :: b :: rest).length ≥ 2 := by
    simp only [List.length_cons]
    omega
  refine ⟨?_, ?_, ?_⟩
  · simp [excel_branch_chart, h2, List.getD]
  · simp [csv_branch_chart, h2, List.getD]
  · simp [excel_branch_chart, h2, List.getD]

/-! ## Word-cloud generation (src/app.py lines 73-76)

The `WordCloud` class itself is a third-party library, not part of this
repository; its internal text processing is modelled from the spec's
contract for the Text Visualizer.  The constructor arguments (canvas
size, background, word cap) are taken from the source call site. -/

/-- Modelled from the spec: the "standard stop-word set" the word-cloud
library drops before ranking. -/
def stop_words : List String :=
  ["the", "a", "an", "and", "or", "of", "to", "in", "is", "it",
   "for", "on", "with", "at", "by"]

/-- Modelled from the spec: split a character list at every whitespace
character (empty segments are filtered out by `tokenize`). -/
def splitWhitespace : List Char → List (List Char)
  | [] => [[]]
  | c :: cs =>
    match splitWhitespace cs with
    | [] => [[]]
    | seg :: segs =>
      if c.isWhitespace then [] :: seg :: segs else (c :: seg) :: segs

/-- Modelled from the spec: the library "tokenizes text into words
internally" — lowercase the text and split it into maximal
non-whitespace runs. -/
def tokenize (text : String) : List String :=
  ((splitWhitespace (pyLower text).data).map String.mk).filter (fun w => w ≠ "")

/-- Number of occurrences of a word in a token list. -/
def word_count (w : String) (ws : List String) : Nat :=
  (ws.filter (fun v => v = w)).length

/-- Modelled from the spec: drop stop words, then pair each distinct
remaining word with its frequency. -/
def word_frequencies (text : String) : List (String × Nat) :=
  let ws := (tokenize text).filter (fun w => w ∉ stop_words)
  ws.dedup.map (fun w => (w, word_count w ws))

/-- Frequency-descending comparison on (word, count) pairs. -/
def freqGE (a b : String × Nat) : Prop :=
  b.2 ≤ a.2

instance : DecidableRel freqGE :=
  fun a b => Nat.decLe b.2 a.2

instance : IsTotal (String × Nat) freqGE :=
  ⟨fun a b => Nat.le_total b.2 a.2⟩

instance : IsTrans (String × Nat) freqGE :=
  ⟨fun _ _ _ h1 h2 => Nat.le_trans h2 h1⟩

/-- The artifact `WordCloud(...).generate(text)` returns: canvas
dimensions, background color, word cap, and the ranked
(word, frequency) list it renders. -/
structure WordFrequencyArtifact where
  width : Nat
  height : Nat
  background_color : String
  max_words : Nat
  words : List (String × Nat)
deriving DecidableEq, Repr

/-- Embeds `WordCloud(width=800, height=400, background_color="white",
max_words=200).generate(text)` (src/app.py line 75).  The constructor
arguments come from the source call; `generate`'s internal processing
is modelled from the spec: tokenize, drop stop words, rank by
frequency, keep up to 200 distinct words. -/
def generate_wordcloud (text : String) : WordFrequencyArtifact :=
  ⟨800, 400, "white", 200,
    (List.insertionSort freqGE (word_frequencies text)).take 200⟩

/-! ## Text-branch orchestration (src/app.py lines 130-156) -/

/-- Embeds the word-cloud guard of the pdf and docx branches
(src/app.py lines 136-137 and 150-151): `if text:` — the generator runs
iff the extracted text is non-empty (Python truthiness), with no
trimming applied first. -/
def buildWordCloud (text : String) : Option WordFrequencyArtifact :=
  if text ≠ "" then some (generate_wordcloud text) else none

/-- Embeds the preview expression (src/app.py lines 134 and 148):
`text[:2000] + "..." if len(text) > 2000 else text`. -/
def display_preview (text : String) : String :=
  if pyLen text > 2000 then pyTake 2000 text ++ "..." else text

/-- Embeds the shared shape of the pdf and docx branches after text
extraction: the displayed excerpt and the word-cloud stage's result,
both computed from the same extracted text. -/
def text_branch (text : String) : String × Option WordFrequencyArtifact :=
  (display_preview text, buildWordCloud text)

/-- C4 counterexample: the whitespace-only text " " is empty after
trimming, yet the branch guard `if text:` passes and the word-cloud
generator is invoked — the result is not absent. -/
theorem wordcloud_guard_whitespace_counterexample :
    pyStrip " " = "" ∧ buildWordCloud " " ≠ none := by
  constructor
  · decide
  · decide

/-- C4 amended: for the empty text the word-cloud stage yields an
absent result and constructs no artifact, with no error; for every
non-empty text — including whitespace-only text — the generator is
invoked and an artifact is produced. -/
theorem wordcloud_absent_iff_empty :
    buildWordCloud "" = none ∧
      ∀ text : String, text ≠ "" →
        buildWordCloud text = some (generate_wordcloud text) := by
  constructor
  · decide
  · intro text h
    simp [buildWordCloud, h]

/-- Witness for C4's amended theorem at the non-empty text "cat". -/
theorem wordcloud_absent_iff_empty_witness :
    buildWordCloud "cat" = some (generate_wordcloud "cat") :=
  wordcloud_absent_iff_empty.2 "cat" (by decide)

/-- C5: the 2000-character preview truncation is presentation-only: the
word-cloud stage always receives the full extracted text, while the
displayed excerpt is the text itself when it has at most 2000
characters and otherwise its first 2000 characters with an ellipsis
appended. -/
theorem preview_truncation_presentation_only (text : String) :
    (text_branch text).1 =
        (if pyLen text ≤ 2000 then text else pyTake 2000 text ++ "...") ∧
      (text_branch text).2 =
        (if text = "" then none else some (generate_wordcloud text)) := by
  constructor
  · by_cases h : pyLen text ≤ 2000
    · have hng : ¬ pyLen text > 2000 := by omega
      simp [text_branch, display_preview, hng, h]
    · have hgt : pyLen text > 2000 := by omega
      simp [text_branch, display_preview, hgt, h]
  · by_cases h : text = ""
    · simp [text_branch, buildWordCloud, h]
    · simp [text_branch, buildWordCloud, h]

/-- C8: the generated artifact always uses the fixed 800 by 400 white
canvas with a 200-word cap, renders at most 200 words, none of them
stop words, ranked by descending frequency; on the text
"the the the cat cat dog" the rendered list is cat before dog with
"the" excluded. -/
theorem generate_wordcloud_contract (text : String) :
    (generate_wordcloud text).width = 800 ∧
    (generate_wordcloud text).height = 400 ∧
    (generate_wordcloud text).background_color = "white" ∧
    (generate_wordcloud text).max_words = 200 ∧
    (generate_wordcloud text).words.length ≤ 200 ∧
    List.Sorted freqGE (generate_wordcloud text).words ∧
    (∀ w ∈ (generate_wordcloud text).words, w.1 ∉ stop_words) ∧
    (generate_wordcloud "the the the cat cat dog").words =
      [("cat", 2), ("dog", 1)] := by
  refine ⟨rfl, rfl, rfl, rfl, ?_, ?_, ?_, by decide⟩
  · show ((List.insertionSort freqGE (word_frequencies text)).take 200).length ≤ 200
    rw [List.length_take]
    exact Nat.min_le_left _ _
  · have hs : List.Sorted freqGE (List.insertionSort freqGE (word_frequencies text)) :=
      List.sorted_insertionSort freqGE _
    exact List.Pairwise.sublist (List.take_sublist 200 _) hs
  · intro w hw
    have hw1 : w ∈ List.insertionSort freqGE (word_frequencies text) :=
      List.take_subset 200 _ hw
    have hw2 : w ∈ word_frequencies text :=
      (List.mem_insertionSort freqGE).mp hw1
    simp only [word_frequencies, List.mem_map] at hw2
    obtain ⟨w0, hw0, rfl⟩ := hw2
    have hw3 := List.mem_dedup.mp hw0
    have hw4 := List.mem_filter.mp hw3
    simpa using hw4.2

/-- Witness for C8 on the sample text, at the rendered word "cat". -/
theorem generate_wordcloud_contract_witness :
    (("cat", 2) : String × Nat).1 ∉ stop_words :=
  (generate_wordcloud_contract "the the the cat cat dog").2.2.2.2.2.2.1
    ("cat", 2) (by decide)

/-! ## Main dispatch outcome (src/app.py lines 81-159) -/

/-- Which branch body of the main if/elif chain runs for an uploaded
file; `noBranch` is the fall-through, as the chain has no `else`. -/
inductive MainAction where
  | excelBranch
  | csvBranch
  | pdfBranch
  | docxBranch
  | noBranch
deriving DecidableEq, Repr

/-- Embeds the main dispatch (src/app.py lines 84-156): the branch
selected by the extension chain.  No branch raises for an unrecognized
extension and no error state exists on that path — control simply
falls past the chain. -/
def main_dispatch (name : String) : MainAction :=
  match classify name with
  | some .Spreadsheet => .excelBranch
  | some .DelimitedText => .csvBranch
  | some .PortableDocument => .pdfBranch
  | some .WordDocument => .docxBranch
  | none => .noBranch

/-- C9 counterexample: the filename "notes.txt" has an extension
outside the accepted set, yet the dispatch selects no branch and
produces no error of any kind — the core silently does nothing rather
than rejecting with an UnsupportedFormat error. -/
theorem unsupported_extension_counterexample :
    file_type "notes.txt" = "txt" ∧
      file_type "notes.txt" ∉ (["xlsx", "xls", "csv", "pdf", "docx"] : List String) ∧
      main_dispatch "notes.txt" = MainAction.noBranch := by
  refine ⟨by decide, by decide, by decide⟩

/-- C9 amended: for every uploaded file whose extension is outside the
accepted set, the dispatch chain matches no branch and silently does
nothing — no output and no error; the code implements no defensive
UnsupportedFormat rejection. -/
theorem unsupported_extension_silent_noop (name : String)
    (h : file_type name ∉ (["xlsx", "xls", "csv", "pdf", "docx"] : List String)) :
    main_dispatch name = MainAction.noBranch := by
  simp only [List.mem_cons, List.not_mem_nil, or_false, not_or] at h
  obtain ⟨h1, h2, h3, h4, h5⟩ := h
  simp [main_dispatch, classify, h1, h2, h3, h4, h5]

/-- Witness for C9's amended theorem at a concrete unsupported file. -/
theorem unsupported_extension_silent_noop_witness :
    main_dispatch "data.TXT" = MainAction.noBranch :=
  unsupported_extension_silent_noop "data.TXT" (by decide)

end DataVizApp
